import Mathlib

/-!
Verification development for the todo repository's cache-aside data access
layer (db-service): the Task data model, the PostgreSQL-backed store
statements, the Redis cache client, the cache-aside `TaskRepository`
(repository/task.go, redis variant), the store-only `TaskRepository`
(repository/task.go, plain variant), the `TaskService` business layer
(service/task.go) and the gRPC status mapping of `TaskServer`
(server/task.go).

Machine state (store rows, cache entries, clocks) is passed explicitly;
Go errors become explicit error values; `time.Time` values become natural
numbers (a logical clock); cache entry bytes become a constructor that
records whether the bytes decode back to a Task.
-/

deriving instance DecidableEq for Except

namespace Todo

/-- Modelled from the spec: the `models.Task` struct (the models package is
not part of the provided sources; its fields are those read and written by
the repository code): id, title, description, completed, created_at,
updated_at. Timestamps are logical clock values. -/
structure Task where
  id : Int
  title : String
  description : String
  completed : Bool
  createdAt : Nat
  updatedAt : Nat
deriving Repr, DecidableEq

/-- Modelled from the spec: `models.CreateTaskRequest` carries the title and
description of a task to create. -/
structure CreateTaskRequest where
  title : String
  description : String
deriving Repr, DecidableEq

/-- The two ways a database statement fails in the Go code: `sql.ErrNoRows`
(a scanned query matched no row) and every other error (connectivity,
constraint, scan failure), carried with its message. Matching on the
constructor models Go's pointer comparison `err == sql.ErrNoRows`. -/
inductive DBError where
  | noRows
  | connError (msg : String)
deriving Repr, DecidableEq

/-- `err.Error()` for the modelled database errors; `sql.ErrNoRows` prints
as "sql: no rows in result set" in Go. -/
def DBError.message : DBError → String
  | .noRows => "sql: no rows in result set"
  | .connError m => m

/-- The relational store: its rows, the value `CURRENT_TIMESTAMP` yields for
statements executed now, and an injected failure (when `failure = some m`,
every statement errors with that message, modelling a connectivity or
constraint failure). `nextId` is the id the next insert assigns. -/
structure Store where
  rows : List Task
  now : Nat
  nextId : Int
  failure : Option String
deriving Repr, DecidableEq

/-- `INSERT INTO tasks (title, description) VALUES ($1, $2) RETURNING ...`:
the store assigns the id and both timestamps; `completed` defaults false. -/
def Store.insert (s : Store) (title description : String) :
    Except DBError (Task × Store) :=
  match s.failure with
  | some m => .error (.connError m)
  | none =>
    let task : Task :=
      { id := s.nextId, title := title, description := description,
        completed := false, createdAt := s.now, updatedAt := s.now }
    .ok (task, { s with rows := s.rows ++ [task], nextId := s.nextId + 1 })

/-- `SELECT ... FROM tasks WHERE id = $1` scanned through `QueryRow`:
no matching row yields `sql.ErrNoRows`. -/
def Store.findByID (s : Store) (id : Int) : Except DBError Task :=
  match s.failure with
  | some m => .error (.connError m)
  | none =>
    match s.rows.find? (fun t => t.id == id) with
    | some t => .ok t
    | none => .error .noRows

/-- `SELECT ... FROM tasks`: all rows in store order. -/
def Store.findAll (s : Store) : Except DBError (List Task) :=
  match s.failure with
  | some m => .error (.connError m)
  | none => .ok s.rows

/-- `UPDATE tasks SET completed = true, updated_at = CURRENT_TIMESTAMP
WHERE id = $1 RETURNING ...` scanned through `QueryRow`: updating no row
yields `sql.ErrNoRows`. -/
def Store.complete (s : Store) (id : Int) : Except DBError (Task × Store) :=
  match s.failure with
  | some m => .error (.connError m)
  | none =>
    match s.rows.find? (fun t => t.id == id) with
    | none => .error .noRows
    | some t =>
      let t2 := { t with completed := true, updatedAt := s.now }
      .ok (t2, { s with rows := s.rows.map (fun u => if u.id == id then t2 else u) })

/-- `DELETE FROM tasks WHERE id = $1` through `Exec`, returning the
rows-affected count. (The `RowsAffected()` accessor's own error branch is
subsumed by `failure`: either way the statement reports a non-`ErrNoRows`
error and no cache action happens.) -/
def Store.deleteRow (s : Store) (id : Int) : Except DBError (Nat × Store) :=
  match s.failure with
  | some m => .error (.connError m)
  | none =>
    .ok ((s.rows.filter (fun t => t.id == id)).length,
         { s with rows := s.rows.filter (fun t => !(t.id == id)) })

/-- The bytes stored under a cache key: either a well-formed JSON encoding
of a Task (which `json.Unmarshal` decodes back to that Task) or bytes that
fail to decode. -/
inductive CacheValue where
  | enc (t : Task)
  | junk (bytes : String)
deriving Repr, DecidableEq

/-- One Redis entry: key, value, and the absolute time at which it expires
(set time plus TTL). -/
structure CacheEntry where
  key : String
  val : CacheValue
  expiresAt : Nat
deriving Repr, DecidableEq

/-- How a Redis `GET` fails: `redis.Nil` (key absent or expired) or a
connectivity error. -/
inductive CacheErr where
  | nilErr
  | connErr
deriving Repr, DecidableEq

/-- The Redis cache: its live entries, the current time, and injected
failures for each command (`getFail`/`setFail`/`delFail` model connectivity
errors on GET/SET/DEL) plus `marshalFail` modelling a `json.Marshal`
failure inside the repository before a SET. -/
structure Cache where
  entries : List CacheEntry
  now : Nat
  getFail : Bool
  setFail : Bool
  delFail : Bool
  marshalFail : Bool
deriving Repr, DecidableEq

/-- Redis `GET`: an expired entry behaves exactly like an absent one
(`redis.Nil`). -/
def Cache.get (c : Cache) (k : String) : Except CacheErr CacheValue :=
  if c.getFail then .error .connErr
  else
    match c.entries.find? (fun e => e.key == k) with
    | some e => if c.now < e.expiresAt then .ok e.val else .error .nilErr
    | none => .error .nilErr

/-- Redis `SET key value ttl`: replaces any previous entry for the key and
stamps the new expiry; on a connectivity failure the cache is unchanged. -/
def Cache.set (c : Cache) (k : String) (v : CacheValue) (ttl : Nat) : Cache :=
  if c.setFail then c
  else { c with entries :=
          ⟨k, v, c.now + ttl⟩ :: c.entries.filter (fun e => !(e.key == k)) }

/-- Redis `DEL key`; on a connectivity failure the cache is unchanged. -/
def Cache.del (c : Cache) (k : String) : Cache :=
  if c.delFail then c
  else { c with entries := c.entries.filter (fun e => !(e.key == k)) }

/-- The cache-aside repository's construction-time configuration:
whether a redis client handle was supplied (`redisClient != nil`) and the
configured TTL (`time.Duration`, possibly non-positive). -/
structure TaskRepository where
  hasRedisClient : Bool
  cacheTTL : Int
deriving Repr, DecidableEq

/-- The mutable world the repository acts on: the store and the cache. -/
structure RepoState where
  store : Store
  cache : Cache
deriving Repr, DecidableEq

namespace TaskRepository

/-- `fmt.Sprintf("task:%d", id)`. -/
def cacheKey (id : Int) : String := "task:" ++ toString id

/-- `r.redisClient != nil && r.cacheTTL > 0`. -/
def cacheEnabled (r : TaskRepository) : Bool :=
  r.hasRedisClient && r.cacheTTL > 0

/-- `setTaskCache`: no-op when the cache is disabled; a marshal failure or a
SET failure is logged and swallowed, leaving the cache as it was. -/
def setTaskCache (r : TaskRepository) (c : Cache) (task : Task) : Cache :=
  if !r.cacheEnabled then c
  else if c.marshalFail then c
  else c.set (cacheKey task.id) (.enc task) r.cacheTTL.toNat

/-- `getTaskFromCache`: `none` is a miss — cache disabled, GET error
(`redis.Nil` or connectivity, the latter logged), or undecodable bytes
(unmarshal failure, logged). A decodable entry is a hit. -/
def getTaskFromCache (r : TaskRepository) (c : Cache) (id : Int) : Option Task :=
  if !r.cacheEnabled then none
  else
    match c.get (cacheKey id) with
    | .error _ => none
    | .ok (.enc t) => some t
    | .ok (.junk _) => none

/-- `deleteTaskCache`: no-op when the cache is disabled; a DEL failure is
logged and swallowed. -/
def deleteTaskCache (r : TaskRepository) (c : Cache) (id : Int) : Cache :=
  if !r.cacheEnabled then c
  else c.del (cacheKey id)

/-- `CreateTask`: insert through the store; on success best-effort cache
the new task; a store error is returned as-is. -/
def createTask (r : TaskRepository) (s : RepoState) (req : CreateTaskRequest) :
    Except DBError Task × RepoState :=
  match s.store.insert req.title req.description with
  | .error e => (.error e, s)
  | .ok (task, store2) => (.ok task, ⟨store2, setTaskCache r s.cache task⟩)

/-- `GetTaskByID`: cache-first; a hit returns immediately; a miss reads the
store and, on a store hit, populates the cache before returning. -/
def getTaskByID (r : TaskRepository) (s : RepoState) (id : Int) :
    Except DBError Task × RepoState :=
  match getTaskFromCache r s.cache id with
  | some t => (.ok t, s)
  | none =>
    match s.store.findByID id with
    | .error e => (.error e, s)
    | .ok task => (.ok task, ⟨s.store, setTaskCache r s.cache task⟩)

/-- `GetAllTasks`: reads the store only; the cache is never consulted. -/
def getAllTasks (_r : TaskRepository) (s : RepoState) :
    Except DBError (List Task) × RepoState :=
  match s.store.findAll with
  | .error e => (.error e, s)
  | .ok ts => (.ok ts, s)

/-- `CompleteTask`: update through the store; on success overwrite the
cache entry with the updated task. -/
def completeTask (r : TaskRepository) (s : RepoState) (id : Int) :
    Except DBError Task × RepoState :=
  match s.store.complete id with
  | .error e => (.error e, s)
  | .ok (task, store2) => (.ok task, ⟨store2, setTaskCache r s.cache task⟩)

/-- `DeleteTask`: delete through the store; zero rows affected returns
`sql.ErrNoRows` without touching the cache; otherwise best-effort delete
the cache entry and return success. -/
def deleteTask (r : TaskRepository) (s : RepoState) (id : Int) :
    Except DBError Unit × RepoState :=
  match s.store.deleteRow id with
  | .error e => (.error e, s)
  | .ok (rowsAffected, store2) =>
    if rowsAffected == 0 then (.error .noRows, ⟨store2, s.cache⟩)
    else (.ok (), ⟨store2, deleteTaskCache r s.cache id⟩)

end TaskRepository

/- The store-only repository variant (no redis handle at all): its five
methods touch only the database. `DoneTask` is its name for the completion
update. -/
namespace StoreOnly

def createTask (st : Store) (req : CreateTaskRequest) : Except DBError Task × Store :=
  match st.insert req.title req.description with
  | .error e => (.error e, st)
  | .ok (task, store2) => (.ok task, store2)

def getTaskByID (st : Store) (id : Int) : Except DBError Task × Store :=
  match st.findByID id with
  | .error e => (.error e, st)
  | .ok task => (.ok task, st)

def getAllTasks (st : Store) : Except DBError (List Task) × Store :=
  match st.findAll with
  | .error e => (.error e, st)
  | .ok ts => (.ok ts, st)

def doneTask (st : Store) (id : Int) : Except DBError Task × Store :=
  match st.complete id with
  | .error e => (.error e, st)
  | .ok (task, store2) => (.ok task, store2)

def deleteTask (st : Store) (id : Int) : Except DBError Unit × Store :=
  match st.deleteRow id with
  | .error e => (.error e, st)
  | .ok (rowsAffected, store2) =>
    if rowsAffected == 0 then (.error .noRows, store2)
    else (.ok (), store2)

end StoreOnly

/-- Go's `strings.TrimSpace`: the string with leading and trailing
whitespace removed. -/
def trimSpace (s : String) : String :=
  ⟨((s.data.dropWhile Char.isWhitespace).reverse.dropWhile
      Char.isWhitespace).reverse⟩

/- The business-logic layer `TaskService` (service/task.go). Its methods
return Go errors whose only observable at the transport layer is
`err.Error()`, so errors are modelled as their message strings. Each method
composes the cache-aside repository, threading the machine state. -/
namespace TaskService

/-- `CreateTask`: rejects a whitespace-only title, then a title whose Go
`len` (byte length) exceeds 255; otherwise calls the repository and passes
its error through unchanged. -/
def createTask (r : TaskRepository) (s : RepoState) (req : CreateTaskRequest) :
    Except String Task × RepoState :=
  if trimSpace req.title == "" then (.error "title can not be empty", s)
  else if 255 < req.title.utf8ByteSize then
    (.error "title too long, maximum 255 characters", s)
  else
    match r.createTask s req with
    | (.error e, s2) => (.error e.message, s2)
    | (.ok task, s2) => (.ok task, s2)

/-- `GetTaskByID`: rejects non-positive ids; maps the repository's
`sql.ErrNoRows` to "task not found" and every other repository error to
"internal server error". -/
def getTaskByID (r : TaskRepository) (s : RepoState) (id : Int) :
    Except String Task × RepoState :=
  if id ≤ 0 then (.error "invalid task id", s)
  else
    match r.getTaskByID s id with
    | (.error .noRows, s2) => (.error "task not found", s2)
    | (.error _, s2) => (.error "internal server error", s2)
    | (.ok task, s2) => (.ok task, s2)

/-- `GetAllTasks`: maps any repository error to "internal server error". -/
def getAllTasks (r : TaskRepository) (s : RepoState) :
    Except String (List Task) × RepoState :=
  match r.getAllTasks s with
  | (.error _, s2) => (.error "internal server error", s2)
  | (.ok ts, s2) => (.ok ts, s2)

/-- `CompleteTask`: rejects non-positive ids; pre-reads the task through
the repository, passing any repository error through unchanged (raw, not
translated); rejects an already-completed task; then completes through the
repository, again passing errors through unchanged. -/
def completeTask (r : TaskRepository) (s : RepoState) (id : Int) :
    Except String Task × RepoState :=
  if id ≤ 0 then (.error "invalid task id", s)
  else
    match r.getTaskByID s id with
    | (.error e, s2) => (.error e.message, s2)
    | (.ok task, s2) =>
      if task.completed then (.error "task already completed", s2)
      else
        match r.completeTask s2 id with
        | (.error e, s3) => (.error e.message, s3)
        | (.ok t2, s3) => (.ok t2, s3)

/-- `DeleteTask`: rejects non-positive ids; pre-reads the task through the
repository and maps ANY failure of that read (including connectivity
errors) to "failed to find task"; then deletes through the repository,
passing its error through unchanged. -/
def deleteTask (r : TaskRepository) (s : RepoState) (id : Int) :
    Except String Unit × RepoState :=
  if id ≤ 0 then (.error "invalid id", s)
  else
    match r.getTaskByID s id with
    | (.error _, s2) => (.error "failed to find task", s2)
    | (.ok _, s2) =>
      match r.deleteTask s2 id with
      | (.error e, s3) => (.error e.message, s3)
      | (.ok _, s3) => (.ok (), s3)

end TaskService

/-- The gRPC status codes the `TaskServer` (server/task.go) produces. -/
inductive GrpcCode where
  | okCode
  | invalidArgument
  | notFoundCode
  | failedPrecondition
  | internalCode
deriving Repr, DecidableEq

/- The transport layer's error-to-status switches, one per handler, each
switching on `err.Error()` with a default of `codes.Internal`. -/
namespace TaskServer

/-- `CreateTask` handler's switch. -/
def createTaskCode (res : Except String Task) : GrpcCode :=
  match res with
  | .ok _ => .okCode
  | .error m =>
    if m == "title can not be empty" then .invalidArgument
    else if m == "title too long, maximum 255 characters" then .invalidArgument
    else .internalCode

/-- `GetTaskByID` handler's switch. -/
def getTaskByIDCode (res : Except String Task) : GrpcCode :=
  match res with
  | .ok _ => .okCode
  | .error m =>
    if m == "invalid task id" then .invalidArgument
    else if m == "task not found" then .notFoundCode
    else .internalCode

/-- `GetAllTasks` handler: any service error becomes `codes.Internal`. -/
def getAllTasksCode (res : Except String (List Task)) : GrpcCode :=
  match res with
  | .ok _ => .okCode
  | .error _ => .internalCode

/-- `CompleteTask` handler's switch. -/
def completeTaskCode (res : Except String Task) : GrpcCode :=
  match res with
  | .ok _ => .okCode
  | .error m =>
    if m == "invalid task id" then .invalidArgument
    else if m == "task not found" then .notFoundCode
    else if m == "task already completed" then .failedPrecondition
    else .internalCode

/-- `DeleteTask` handler's switch. -/
def deleteTaskCode (res : Except String Unit) : GrpcCode :=
  match res with
  | .ok _ => .okCode
  | .error m =>
    if m == "invalid id" then .invalidArgument
    else if m == "failed to find task" then .notFoundCode
    else .internalCode

end TaskServer

/-! Shared concrete fixtures, used to instantiate the theorems below. -/

/-- A sample task, id 7, title "A". -/
def sampleTask : Task :=
  { id := 7, title := "A", description := "d", completed := false,
    createdAt := 1, updatedAt := 1 }

/-- A repository with the cache enabled (redis handle present, TTL 5). -/
def rEnabled : TaskRepository := { hasRedisClient := true, cacheTTL := 5 }

/-- A repository with the cache disabled (no redis handle, TTL 0). -/
def rDisabled : TaskRepository := { hasRedisClient := false, cacheTTL := 0 }

/-- An empty, healthy cache at time 10. -/
def cache0 : Cache :=
  { entries := [], now := 10, getFail := false, setFail := false,
    delFail := false, marshalFail := false }

/-- A healthy cache holding a live entry for `sampleTask` (expires at 99). -/
def cacheWith7 : Cache :=
  { entries := [⟨TaskRepository.cacheKey 7, .enc sampleTask, 99⟩], now := 10,
    getFail := false, setFail := false, delFail := false, marshalFail := false }

/-- A cache with every fault injected: GET, SET and DEL all fail with
connectivity errors and marshalling fails too. -/
def cacheAllFail : Cache :=
  { entries := [], now := 10, getFail := true, setFail := true,
    delFail := true, marshalFail := true }

/-- A healthy cache whose live entry for id 7 holds undecodable bytes. -/
def cacheJunk7 : Cache :=
  { entries := [⟨TaskRepository.cacheKey 7, .junk "oops", 99⟩], now := 10,
    getFail := false, setFail := false, delFail := false, marshalFail := false }

/-- A healthy store holding `sampleTask` only. -/
def store7 : Store := { rows := [sampleTask], now := 20, nextId := 8, failure := none }

/-- An empty healthy store. -/
def storeEmpty : Store := { rows := [], now := 20, nextId := 1, failure := none }

/-- A store with a connectivity failure injected: every statement errors. -/
def storeDown : Store := { rows := [], now := 20, nextId := 1, failure := some "db down" }

/-- `sampleTask` already completed. -/
def doneTask7 : Task := { sampleTask with completed := true }

/-- A healthy store holding the already-completed task 7. -/
def storeDone7 : Store := { rows := [doneTask7], now := 20, nextId := 8, failure := none }

/-- A title of 256 characters, over the 255-character bound. -/
def longTitle : String := String.mk (List.replicate 256 'a')

/-! Helper lemmas shared by the claim theorems. -/

/-- With the cache disabled, a cache lookup is always a miss. -/
lemma getTaskFromCache_of_disabled (r : TaskRepository) (c : Cache) (id : Int)
    (h : r.cacheEnabled = false) : TaskRepository.getTaskFromCache r c id = none := by
  simp [TaskRepository.getTaskFromCache, h]

/-- With the cache disabled, a cache population is a no-op. -/
lemma setTaskCache_of_disabled (r : TaskRepository) (c : Cache) (t : Task)
    (h : r.cacheEnabled = false) : TaskRepository.setTaskCache r c t = c := by
  simp [TaskRepository.setTaskCache, h]

/-- With the cache disabled, a cache deletion is a no-op. -/
lemma deleteTaskCache_of_disabled (r : TaskRepository) (c : Cache) (id : Int)
    (h : r.cacheEnabled = false) : TaskRepository.deleteTaskCache r c id = c := by
  simp [TaskRepository.deleteTaskCache, h]

/-- A character list's length is at most its UTF-8 byte count. -/
lemma length_le_utf8Len (cs : List Char) : cs.length ≤ String.utf8Len cs := by
  induction cs with
  | nil => simp
  | cons c cs ih =>
    have hc := Char.utf8Size_pos c
    simp only [List.length_cons, String.utf8Len_cons]
    omega

/-- A string's character count is at most its Go `len` (UTF-8 byte count). -/
lemma string_length_le_utf8ByteSize (s : String) : s.length ≤ s.utf8ByteSize := by
  rcases s with ⟨cs⟩
  simpa using length_le_utf8Len cs

/-- Replacing the updated row in place preserves lookup: if `find?` located
`t` and `t2` also matches the id, the updated list's `find?` yields `t2`. -/
lemma find?_map_update (l : List Task) (id : Int) (t t2 : Task)
    (h : l.find? (fun u => u.id == id) = some t) (hid : (t2.id == id) = true) :
    (l.map (fun u => if u.id == id then t2 else u)).find? (fun u => u.id == id)
      = some t2 := by
  induction l with
  | nil => simp at h
  | cons a l ih =>
    rw [List.map_cons]
    by_cases ha : (a.id == id) = true
    · rw [if_pos ha]
      exact List.find?_cons_of_pos _ hid
    · rw [if_neg ha, List.find?_cons_of_neg (p := fun (u : Task) => u.id == id) _ ha]
      rw [List.find?_cons_of_neg (p := fun (u : Task) => u.id == id) _ ha] at h
      exact ih h

/-- Scenario driver for the staleness test: a direct
`DELETE FROM tasks WHERE id = $1` issued against the store, bypassing the
repository, after which the clock reads `t`. -/
def oobDeleteAndAdvance (s : RepoState) (id : Int) (t : Nat) : RepoState :=
  ⟨{ s.store with rows := s.store.rows.filter (fun u => !(u.id == id)) },
   { s.cache with now := t }⟩

/-- After filtering out every element matching a predicate, `find?` for
that predicate comes up empty. -/
lemma find?_filter_not {α : Type} (p : α → Bool) (l : List α) :
    (l.filter (fun x => !(p x))).find? p = none := by
  rw [List.find?_eq_none]
  intro x hx
  have := (List.mem_filter.mp hx).2
  simp_all

/-- Claim C1: Repository `GetTaskByID` is cache-first. A hit (cache
enabled, entry present and decodable) returns the cached task with the
whole state unchanged, for every store whatsoever — so no store read can
influence the outcome. A disabled cache, a GET error (absence or
connectivity) and undecodable bytes are each a miss; on a miss it reads
the store, and on a store hit it returns the task with the cache populated
by `setTaskCache` — which, when the cache is enabled and healthy, makes
the entry readable; a store error is propagated with no cache write. -/
theorem getTaskByID_cacheFirst :
    (∀ (r : TaskRepository) (st : Store) (c : Cache) (id : Int) (t : Task),
      r.cacheEnabled = true →
      c.get (TaskRepository.cacheKey id) = .ok (.enc t) →
      TaskRepository.getTaskByID r ⟨st, c⟩ id = (.ok t, ⟨st, c⟩)) ∧
    (∀ (r : TaskRepository) (c : Cache) (id : Int),
      r.cacheEnabled = false → TaskRepository.getTaskFromCache r c id = none) ∧
    (∀ (r : TaskRepository) (c : Cache) (id : Int) (e : CacheErr),
      c.get (TaskRepository.cacheKey id) = .error e →
      TaskRepository.getTaskFromCache r c id = none) ∧
    (∀ (r : TaskRepository) (c : Cache) (id : Int) (b : String),
      c.get (TaskRepository.cacheKey id) = .ok (.junk b) →
      TaskRepository.getTaskFromCache r c id = none) ∧
    (∀ (r : TaskRepository) (st : Store) (c : Cache) (id : Int) (task : Task),
      TaskRepository.getTaskFromCache r c id = none →
      st.findByID id = .ok task →
      TaskRepository.getTaskByID r ⟨st, c⟩ id =
        (.ok task, ⟨st, TaskRepository.setTaskCache r c task⟩)) ∧
    (∀ (r : TaskRepository) (c : Cache) (task : Task),
      r.cacheEnabled = true → c.setFail = false → c.marshalFail = false →
      c.getFail = false →
      (TaskRepository.setTaskCache r c task).get (TaskRepository.cacheKey task.id)
        = .ok (.enc task)) ∧
    (∀ (r : TaskRepository) (st : Store) (c : Cache) (id : Int) (e : DBError),
      TaskRepository.getTaskFromCache r c id = none →
      st.findByID id = .error e →
      TaskRepository.getTaskByID r ⟨st, c⟩ id = (.error e, ⟨st, c⟩)) := by
  refine ⟨?_, ?_, ?_, ?_, ?_, ?_, ?_⟩
  · intro r st c id t hen hget
    simp [TaskRepository.getTaskByID, TaskRepository.getTaskFromCache, hen, hget]
  · intro r c id h
    simp [TaskRepository.getTaskFromCache, h]
  · intro r c id e h
    simp [TaskRepository.getTaskFromCache, h]
  · intro r c id b h
    simp [TaskRepository.getTaskFromCache, h]
  · intro r st c id task hmiss hrow
    simp [TaskRepository.getTaskByID, hmiss, hrow]
  · intro r c task hen hsf hmf hgf
    have hpos : 0 < r.cacheTTL := by
      have h := hen
      simp [TaskRepository.cacheEnabled, Bool.and_eq_true, decide_eq_true_eq] at h
      exact h.2
    have hlt : c.now < c.now + r.cacheTTL.toNat := by omega
    simp [TaskRepository.setTaskCache, hen, hmf, Cache.set, hsf, Cache.get, hgf,
      List.find?, hlt]
  · intro r st c id e hmiss herr
    simp [TaskRepository.getTaskByID, hmiss, herr]

/-- Witness for C1: a cache hit on id 7 returns the cached task even
against a store whose every statement fails; a cache miss against a
healthy store returns the stored task and populates the cache. -/
theorem getTaskByID_cacheFirst_witness :
    TaskRepository.getTaskByID rEnabled ⟨storeDown, cacheWith7⟩ 7
      = (.ok sampleTask, ⟨storeDown, cacheWith7⟩) ∧
    TaskRepository.getTaskByID rEnabled ⟨store7, cache0⟩ 7
      = (.ok sampleTask, ⟨store7, TaskRepository.setTaskCache rEnabled cache0 sampleTask⟩) ∧
    (TaskRepository.setTaskCache rEnabled cache0 sampleTask).get
      (TaskRepository.cacheKey sampleTask.id) = .ok (.enc sampleTask) := by
  refine ⟨?_, ?_, ?_⟩
  · exact getTaskByID_cacheFirst.1 rEnabled storeDown cacheWith7 7 sampleTask
      (by decide) (by decide)
  · exact getTaskByID_cacheFirst.2.2.2.2.1 rEnabled store7 cache0 7 sampleTask
      (by decide) (by decide)
  · exact getTaskByID_cacheFirst.2.2.2.2.2.1 rEnabled cache0 sampleTask
      (by decide) (by decide) (by decide) (by decide)

/-- Claim C10: on a cache hit, `GetTaskByID` performs no write at all — the
returned state is exactly the input state, so the entry, its expiry moment
and the store are all left as they were. -/
theorem getTaskByID_hit_noWrite (r : TaskRepository) (s : RepoState) (id : Int)
    (t : Task) (hen : r.cacheEnabled = true)
    (hget : s.cache.get (TaskRepository.cacheKey id) = .ok (.enc t)) :
    TaskRepository.getTaskByID r s id = (.ok t, s) := by
  simp [TaskRepository.getTaskByID, TaskRepository.getTaskFromCache, hen, hget]

/-- Witness for C10 at concrete inputs. -/
theorem getTaskByID_hit_noWrite_witness :
    TaskRepository.getTaskByID rEnabled ⟨store7, cacheWith7⟩ 7
      = (.ok sampleTask, ⟨store7, cacheWith7⟩) :=
  getTaskByID_hit_noWrite rEnabled ⟨store7, cacheWith7⟩ 7 sampleTask
    (by decide) (by decide)

/-- Claim C6: on a cache miss and a store miss, `GetTaskByID` returns
`sql.ErrNoRows` with the state (cache included) unchanged; a cache miss
with a store row present is a success, never a not-found. -/
theorem getTaskByID_notFound_spec (r : TaskRepository) (s : RepoState) (id : Int)
    (hmiss : TaskRepository.getTaskFromCache r s.cache id = none) :
    (s.store.findByID id = .error .noRows →
      TaskRepository.getTaskByID r s id = (.error .noRows, s)) ∧
    (∀ t : Task, s.store.findByID id = .ok t →
      (TaskRepository.getTaskByID r s id).1 = .ok t) := by
  constructor
  · intro h
    simp [TaskRepository.getTaskByID, hmiss, h]
  · intro t h
    simp [TaskRepository.getTaskByID, hmiss, h]

/-- Witness for C6 at concrete inputs. -/
theorem getTaskByID_notFound_witness :
    TaskRepository.getTaskByID rEnabled ⟨storeEmpty, cache0⟩ 9
      = (.error .noRows, ⟨storeEmpty, cache0⟩) ∧
    (TaskRepository.getTaskByID rEnabled ⟨store7, cache0⟩ 7).1 = .ok sampleTask := by
  constructor
  · exact (getTaskByID_notFound_spec rEnabled ⟨storeEmpty, cache0⟩ 9 (by decide)).1
      (by decide)
  · exact (getTaskByID_notFound_spec rEnabled ⟨store7, cache0⟩ 7 (by decide)).2
      sampleTask (by decide)

/-- Claim C5: `DeleteTask` deletes through the store; zero rows affected
yields `sql.ErrNoRows` with the cache untouched; one or more rows affected
yields success with the cache entry deleted best-effort (the result never
depends on the cache, so a DEL failure is not propagated), and when the
cache is enabled and DEL succeeds the entry is really gone. -/
theorem deleteTask_spec (r : TaskRepository) (s : RepoState) (id : Int) :
    (∀ store2 : Store, s.store.deleteRow id = .ok (0, store2) →
      TaskRepository.deleteTask r s id = (.error .noRows, ⟨store2, s.cache⟩)) ∧
    (∀ (n : Nat) (store2 : Store), s.store.deleteRow id = .ok (n, store2) →
      n ≠ 0 →
      TaskRepository.deleteTask r s id =
        (.ok (), ⟨store2, TaskRepository.deleteTaskCache r s.cache id⟩)) ∧
    (∀ c2 : Cache,
      (TaskRepository.deleteTask r ⟨s.store, c2⟩ id).1
        = (TaskRepository.deleteTask r s id).1) ∧
    (∀ c : Cache, r.cacheEnabled = true → c.delFail = false →
      (TaskRepository.deleteTaskCache r c id).entries.find?
        (fun e => e.key == TaskRepository.cacheKey id) = none) := by
  refine ⟨?_, ?_, ?_, ?_⟩
  · intro store2 h
    simp [TaskRepository.deleteTask, h]
  · intro n store2 h hn
    simp [TaskRepository.deleteTask, h, hn]
  · intro c2
    cases hd : s.store.deleteRow id with
    | error e => simp [TaskRepository.deleteTask, hd]
    | ok p =>
      by_cases hn : p.1 = 0
      · simp [TaskRepository.deleteTask, hd, hn]
      · simp [TaskRepository.deleteTask, hd, hn]
  · intro c hen hdf
    simp only [TaskRepository.deleteTaskCache, hen, Bool.not_true, Bool.false_eq_true,
      if_false, Cache.del, hdf]
    exact find?_filter_not (fun e => e.key == TaskRepository.cacheKey id) c.entries

/-- Witness for C5 at concrete inputs. -/
theorem deleteTask_witness :
    TaskRepository.deleteTask rEnabled ⟨store7, cacheWith7⟩ 9
      = (.error .noRows, ⟨store7, cacheWith7⟩) ∧
    TaskRepository.deleteTask rEnabled ⟨store7, cacheWith7⟩ 7
      = (.ok (), ⟨{ store7 with rows := [] },
                  TaskRepository.deleteTaskCache rEnabled cacheWith7 7⟩) ∧
    (TaskRepository.deleteTaskCache rEnabled cacheWith7 7).entries.find?
      (fun e => e.key == TaskRepository.cacheKey 7) = none := by
  refine ⟨?_, ?_, ?_⟩
  · exact (deleteTask_spec rEnabled ⟨store7, cacheWith7⟩ 9).1 store7 (by decide)
  · exact (deleteTask_spec rEnabled ⟨store7, cacheWith7⟩ 7).2.1 1
      { store7 with rows := [] } (by decide) (by decide)
  · exact (deleteTask_spec rEnabled ⟨store7, cacheWith7⟩ 7).2.2.2 cacheWith7
      (by decide) (by decide)

/-- Claim C3: with the cache disabled (no redis handle or TTL ≤ 0), every
repository operation returns exactly the store-only implementation's
result, drives the store to the same state, and leaves the cache
untouched. -/
theorem cacheDisabled_storeOnly_equiv (r : TaskRepository)
    (h : r.cacheEnabled = false) :
    (∀ (s : RepoState) (req : CreateTaskRequest),
      TaskRepository.createTask r s req =
        ((StoreOnly.createTask s.store req).1,
         ⟨(StoreOnly.createTask s.store req).2, s.cache⟩)) ∧
    (∀ (s : RepoState) (id : Int),
      TaskRepository.getTaskByID r s id =
        ((StoreOnly.getTaskByID s.store id).1,
         ⟨(StoreOnly.getTaskByID s.store id).2, s.cache⟩)) ∧
    (∀ s : RepoState,
      TaskRepository.getAllTasks r s =
        ((StoreOnly.getAllTasks s.store).1,
         ⟨(StoreOnly.getAllTasks s.store).2, s.cache⟩)) ∧
    (∀ (s : RepoState) (id : Int),
      TaskRepository.completeTask r s id =
        ((StoreOnly.doneTask s.store id).1,
         ⟨(StoreOnly.doneTask s.store id).2, s.cache⟩)) ∧
    (∀ (s : RepoState) (id : Int),
      TaskRepository.deleteTask r s id =
        ((StoreOnly.deleteTask s.store id).1,
         ⟨(StoreOnly.deleteTask s.store id).2, s.cache⟩)) := by
  refine ⟨?_, ?_, ?_, ?_, ?_⟩
  · intro s req
    cases hi : s.store.insert req.title req.description with
    | error e => simp [TaskRepository.createTask, StoreOnly.createTask, hi]
    | ok p =>
      simp [TaskRepository.createTask, StoreOnly.createTask, hi,
        setTaskCache_of_disabled _ _ _ h]
  · intro s id
    cases hf : s.store.findByID id with
    | error e =>
      simp [TaskRepository.getTaskByID, StoreOnly.getTaskByID, hf,
        getTaskFromCache_of_disabled _ _ _ h]
    | ok t =>
      simp [TaskRepository.getTaskByID, StoreOnly.getTaskByID, hf,
        getTaskFromCache_of_disabled _ _ _ h, setTaskCache_of_disabled _ _ _ h]
  · intro s
    cases hf : s.store.findAll with
    | error e => simp [TaskRepository.getAllTasks, StoreOnly.getAllTasks, hf]
    | ok ts => simp [TaskRepository.getAllTasks, StoreOnly.getAllTasks, hf]
  · intro s id
    cases hc : s.store.complete id with
    | error e => simp [TaskRepository.completeTask, StoreOnly.doneTask, hc]
    | ok p =>
      simp [TaskRepository.completeTask, StoreOnly.doneTask, hc,
        setTaskCache_of_disabled _ _ _ h]
  · intro s id
    cases hd : s.store.deleteRow id with
    | error e => simp [TaskRepository.deleteTask, StoreOnly.deleteTask, hd]
    | ok p =>
      by_cases hn : p.1 = 0
      · simp [TaskRepository.deleteTask, StoreOnly.deleteTask, hd, hn]
      · simp [TaskRepository.deleteTask, StoreOnly.deleteTask, hd, hn,
          deleteTaskCache_of_disabled _ _ _ h]

/-- Witness for C3: with no redis handle, each of the five operations at a
concrete state agrees with the store-only implementation. -/
theorem cacheDisabled_storeOnly_equiv_witness :
    TaskRepository.createTask rDisabled ⟨store7, cache0⟩ ⟨"B", "e"⟩ =
      ((StoreOnly.createTask store7 ⟨"B", "e"⟩).1,
       ⟨(StoreOnly.createTask store7 ⟨"B", "e"⟩).2, cache0⟩) ∧
    TaskRepository.getTaskByID rDisabled ⟨store7, cache0⟩ 7 =
      ((StoreOnly.getTaskByID store7 7).1,
       ⟨(StoreOnly.getTaskByID store7 7).2, cache0⟩) ∧
    TaskRepository.getAllTasks rDisabled ⟨store7, cache0⟩ =
      ((StoreOnly.getAllTasks store7).1, ⟨(StoreOnly.getAllTasks store7).2, cache0⟩) ∧
    TaskRepository.completeTask rDisabled ⟨store7, cache0⟩ 7 =
      ((StoreOnly.doneTask store7 7).1, ⟨(StoreOnly.doneTask store7 7).2, cache0⟩) ∧
    TaskRepository.deleteTask rDisabled ⟨store7, cache0⟩ 7 =
      ((StoreOnly.deleteTask store7 7).1, ⟨(StoreOnly.deleteTask store7 7).2, cache0⟩) := by
  have h := cacheDisabled_storeOnly_equiv rDisabled (by decide)
  exact ⟨h.1 ⟨store7, cache0⟩ ⟨"B", "e"⟩, h.2.1 ⟨store7, cache0⟩ 7,
    h.2.2.1 ⟨store7, cache0⟩, h.2.2.2.1 ⟨store7, cache0⟩ 7,
    h.2.2.2.2 ⟨store7, cache0⟩ 7⟩

/-- Claim C4: the result a repository operation returns never depends on
the cache's health: `CreateTask`, `CompleteTask`, `DeleteTask` and
`GetAllTasks` return the store-only result for every cache state (so any
SET/DEL/marshal failure is invisible, and a cache-write failure never
fails `CreateTask`); `GetTaskByID` returns the store-only result whenever
the cache GET fails with a connectivity error or the entry's bytes fail to
decode. -/
theorem cacheFailure_transparent :
    (∀ (r : TaskRepository) (s : RepoState) (req : CreateTaskRequest),
      (TaskRepository.createTask r s req).1 = (StoreOnly.createTask s.store req).1) ∧
    (∀ (r : TaskRepository) (s : RepoState) (id : Int),
      (TaskRepository.completeTask r s id).1 = (StoreOnly.doneTask s.store id).1) ∧
    (∀ (r : TaskRepository) (s : RepoState) (id : Int),
      (TaskRepository.deleteTask r s id).1 = (StoreOnly.deleteTask s.store id).1) ∧
    (∀ (r : TaskRepository) (s : RepoState),
      (TaskRepository.getAllTasks r s).1 = (StoreOnly.getAllTasks s.store).1) ∧
    (∀ (r : TaskRepository) (s : RepoState) (id : Int),
      s.cache.getFail = true →
      (TaskRepository.getTaskByID r s id).1 = (StoreOnly.getTaskByID s.store id).1) ∧
    (∀ (r : TaskRepository) (s : RepoState) (id : Int) (b : String),
      s.cache.get (TaskRepository.cacheKey id) = .ok (.junk b) →
      (TaskRepository.getTaskByID r s id).1 = (StoreOnly.getTaskByID s.store id).1) := by
  have hmiss : ∀ (r : TaskRepository) (s : RepoState) (id : Int),
      TaskRepository.getTaskFromCache r s.cache id = none →
      (TaskRepository.getTaskByID r s id).1 = (StoreOnly.getTaskByID s.store id).1 := by
    intro r s id hm
    cases hf : s.store.findByID id with
    | error e => simp [TaskRepository.getTaskByID, StoreOnly.getTaskByID, hm, hf]
    | ok t => simp [TaskRepository.getTaskByID, StoreOnly.getTaskByID, hm, hf]
  refine ⟨?_, ?_, ?_, ?_, ?_, ?_⟩
  · intro r s req
    cases hi : s.store.insert req.title req.description with
    | error e => simp [TaskRepository.createTask, StoreOnly.createTask, hi]
    | ok p => simp [TaskRepository.createTask, StoreOnly.createTask, hi]
  · intro r s id
    cases hc : s.store.complete id with
    | error e => simp [TaskRepository.completeTask, StoreOnly.doneTask, hc]
    | ok p => simp [TaskRepository.completeTask, StoreOnly.doneTask, hc]
  · intro r s id
    cases hd : s.store.deleteRow id with
    | error e => simp [TaskRepository.deleteTask, StoreOnly.deleteTask, hd]
    | ok p =>
      by_cases hn : p.1 = 0
      · simp [TaskRepository.deleteTask, StoreOnly.deleteTask, hd, hn]
      · simp [TaskRepository.deleteTask, StoreOnly.deleteTask, hd, hn]
  · intro r s
    cases hf : s.store.findAll with
    | error e => simp [TaskRepository.getAllTasks, StoreOnly.getAllTasks, hf]
    | ok ts => simp [TaskRepository.getAllTasks, StoreOnly.getAllTasks, hf]
  · intro r s id hg
    apply hmiss
    simp [TaskRepository.getTaskFromCache, Cache.get, hg]
  · intro r s id b hj
    apply hmiss
    simp [TaskRepository.getTaskFromCache, hj]

/-- Witness for C4: with every cache fault injected at once, each
operation still returns the store-only result. -/
theorem cacheFailure_transparent_witness :
    (TaskRepository.createTask rEnabled ⟨store7, cacheAllFail⟩ ⟨"B", "e"⟩).1
      = (StoreOnly.createTask store7 ⟨"B", "e"⟩).1 ∧
    (TaskRepository.completeTask rEnabled ⟨store7, cacheAllFail⟩ 7).1
      = (StoreOnly.doneTask store7 7).1 ∧
    (TaskRepository.deleteTask rEnabled ⟨store7, cacheAllFail⟩ 7).1
      = (StoreOnly.deleteTask store7 7).1 ∧
    (TaskRepository.getAllTasks rEnabled ⟨store7, cacheAllFail⟩).1
      = (StoreOnly.getAllTasks store7).1 ∧
    (TaskRepository.getTaskByID rEnabled ⟨store7, cacheAllFail⟩ 7).1
      = (StoreOnly.getTaskByID store7 7).1 ∧
    (TaskRepository.getTaskByID rEnabled ⟨store7, cacheJunk7⟩ 7).1
      = (StoreOnly.getTaskByID store7 7).1 := by
  exact ⟨cacheFailure_transparent.1 rEnabled ⟨store7, cacheAllFail⟩ ⟨"B", "e"⟩,
    cacheFailure_transparent.2.1 rEnabled ⟨store7, cacheAllFail⟩ 7,
    cacheFailure_transparent.2.2.1 rEnabled ⟨store7, cacheAllFail⟩ 7,
    cacheFailure_transparent.2.2.2.1 rEnabled ⟨store7, cacheAllFail⟩,
    cacheFailure_transparent.2.2.2.2.1 rEnabled ⟨store7, cacheAllFail⟩ 7 (by decide),
    cacheFailure_transparent.2.2.2.2.2 rEnabled ⟨store7, cacheJunk7⟩ 7 "oops"
      (by decide)⟩

/-- Claim C7: on an id with a store row, `CompleteTask` returns the row
with `completed = true` and `updated_at` refreshed to the statement's
`CURRENT_TIMESTAMP` — strictly after the prior `updated_at` when the clock
has advanced — and the final cache is the entry overwritten with the
updated task; running `CompleteTask` again on the resulting state still
succeeds and still returns `completed = true`. -/
theorem completeTask_spec (r : TaskRepository) (s : RepoState) (id : Int)
    (t : Task)
    (hrow : s.store.rows.find? (fun u => u.id == id) = some t)
    (hfail : s.store.failure = none)
    (hclk : t.updatedAt < s.store.now) :
    (TaskRepository.completeTask r s id).1
      = .ok { t with completed := true, updatedAt := s.store.now } ∧
    ({ t with completed := true, updatedAt := s.store.now } : Task).completed
      = true ∧
    t.updatedAt
      < ({ t with completed := true, updatedAt := s.store.now } : Task).updatedAt ∧
    (TaskRepository.completeTask r s id).2.cache
      = TaskRepository.setTaskCache r s.cache
          { t with completed := true, updatedAt := s.store.now } ∧
    (∃ t3 : Task,
      (TaskRepository.completeTask r (TaskRepository.completeTask r s id).2 id).1
        = .ok t3 ∧ t3.completed = true) := by
  have hid : (t.id == id) = true := by simpa using List.find?_some hrow
  have hcomp : s.store.complete id =
      .ok ({ t with completed := true, updatedAt := s.store.now },
           { s.store with
               rows := s.store.rows.map (fun u =>
                 if u.id == id then
                   { t with completed := true, updatedAt := s.store.now }
                 else u) }) := by
    simp [Store.complete, hfail, hrow]
  have hfind2 := find?_map_update s.store.rows id t
    { t with completed := true, updatedAt := s.store.now } hrow hid
  refine ⟨?_, rfl, hclk, ?_, ?_⟩
  · simp [TaskRepository.completeTask, hcomp]
  · simp [TaskRepository.completeTask, hcomp]
  · refine ⟨{ t with completed := true, updatedAt := s.store.now }, ?_, rfl⟩
    simp only [TaskRepository.completeTask, Store.complete, hfail, hrow, hfind2]

/-- Witness for C7 at concrete inputs: completing task 7 in `store7`
(clock 20) returns it completed with `updated_at = 20`, and completing it
again still succeeds with `completed = true`. -/
theorem completeTask_witness :
    (TaskRepository.completeTask rEnabled ⟨store7, cache0⟩ 7).1
      = .ok { sampleTask with completed := true, updatedAt := 20 } ∧
    (∃ t3 : Task,
      (TaskRepository.completeTask rEnabled
        (TaskRepository.completeTask rEnabled ⟨store7, cache0⟩ 7).2 7).1
        = .ok t3 ∧ t3.completed = true) := by
  have h := completeTask_spec rEnabled ⟨store7, cache0⟩ 7 sampleTask
    (by decide) (by decide) (by decide)
  exact ⟨h.1, h.2.2.2.2⟩

/-- Claim C2: the staleness window. After a cache-miss `GetTaskByID`
populates the entry from the store, deleting the row out-of-band (a direct
`DELETE`, bypassing the repository) is not observed: before the entry's
expiry (population time plus TTL) `GetTaskByID` still returns the cached
task; at or after expiry it returns `sql.ErrNoRows`. -/
theorem getTaskByID_staleness (r : TaskRepository) (s : RepoState) (id : Int)
    (task : Task) (tNow : Nat)
    (hen : r.cacheEnabled = true)
    (hgf : s.cache.getFail = false) (hsf : s.cache.setFail = false)
    (hmf : s.cache.marshalFail = false)
    (hmiss : TaskRepository.getTaskFromCache r s.cache id = none)
    (hfail : s.store.failure = none)
    (hrow : s.store.rows.find? (fun u => u.id == id) = some task) :
    ∀ s1 s2 : RepoState,
      s1 = (TaskRepository.getTaskByID r s id).2 →
      s2 = oobDeleteAndAdvance s1 id tNow →
      (tNow < s.cache.now + r.cacheTTL.toNat →
        (TaskRepository.getTaskByID r s2 id).1 = .ok task) ∧
      (s.cache.now + r.cacheTTL.toNat ≤ tNow →
        (TaskRepository.getTaskByID r s2 id).1 = .error .noRows) := by
  intro s1 s2 hs1 hs2
  have hid : (task.id == id) = true := by simpa using List.find?_some hrow
  have hideq : task.id = id := eq_of_beq hid
  have hfind : s.store.findByID id = .ok task := by
    simp [Store.findByID, hfail, hrow]
  have hs1' : s1 = ⟨s.store, TaskRepository.setTaskCache r s.cache task⟩ := by
    rw [hs1]; simp [TaskRepository.getTaskByID, hmiss, hfind]
  have hcache1 : TaskRepository.setTaskCache r s.cache task
      = { s.cache with entries := ⟨TaskRepository.cacheKey id, .enc task, s.cache.now + r.cacheTTL.toNat⟩ :: s.cache.entries.filter (fun e => !(e.key == TaskRepository.cacheKey id)) } := by
    simp [TaskRepository.setTaskCache, hen, hmf, Cache.set, hsf, hideq]
  subst hs1'
  subst hs2
  have hnone := find?_filter_not (fun u => u.id == id) s.store.rows
  constructor
  · intro hlt
    simp [oobDeleteAndAdvance, TaskRepository.getTaskByID,
      TaskRepository.getTaskFromCache, hen, Cache.get, hgf, hcache1,
      List.find?, hlt]
  · intro hge
    have hnlt : ¬ (tNow < s.cache.now + r.cacheTTL.toNat) := by omega
    simp [oobDeleteAndAdvance, TaskRepository.getTaskByID,
      TaskRepository.getTaskFromCache, hen, Cache.get, hgf, hcache1,
      List.find?, hnlt, Store.findByID, hfail, hnone]

/-- Witness for C2: in the concrete run (store7, empty cache at time 10,
TTL 5) the entry expires at 15; after the out-of-band row deletion, a read
at time 12 still returns the task and a read at time 20 reports
not-found. -/
theorem getTaskByID_staleness_witness :
    (TaskRepository.getTaskByID rEnabled
      (oobDeleteAndAdvance
        (TaskRepository.getTaskByID rEnabled ⟨store7, cache0⟩ 7).2 7 12) 7).1
      = .ok sampleTask ∧
    (TaskRepository.getTaskByID rEnabled
      (oobDeleteAndAdvance
        (TaskRepository.getTaskByID rEnabled ⟨store7, cache0⟩ 7).2 7 20) 7).1
      = .error .noRows := by
  constructor
  · exact ((getTaskByID_staleness rEnabled ⟨store7, cache0⟩ 7 sampleTask 12
      (by decide) (by decide) (by decide) (by decide) (by decide) (by decide)
      (by decide)) _ _ rfl rfl).1 (by decide)
  · exact ((getTaskByID_staleness rEnabled ⟨store7, cache0⟩ 7 sampleTask 20
      (by decide) (by decide) (by decide) (by decide) (by decide) (by decide)
      (by decide)) _ _ rfl rfl).2 (by decide)

/-- Claim C9: the service rejects, without reaching the corresponding
repository mutation, a whitespace-empty title, a title longer than 255
characters (each also more than 255 bytes, which is what Go's `len`
checks), a non-positive id on each id-taking operation, and completing an
already-completed task — in the last case the final state is exactly the
state after the pre-read, whose store is always unchanged, so the
completion update never ran. -/
theorem service_validation :
    (∀ (r : TaskRepository) (s : RepoState) (req : CreateTaskRequest),
      trimSpace req.title = "" →
      TaskService.createTask r s req = (.error "title can not be empty", s)) ∧
    (∀ (r : TaskRepository) (s : RepoState) (req : CreateTaskRequest),
      255 < req.title.length →
      ((TaskService.createTask r s req).1 = .error "title can not be empty" ∨
       (TaskService.createTask r s req).1
         = .error "title too long, maximum 255 characters") ∧
      (TaskService.createTask r s req).2 = s) ∧
    (∀ (r : TaskRepository) (s : RepoState) (id : Int), id ≤ 0 →
      TaskService.getTaskByID r s id = (.error "invalid task id", s) ∧
      TaskService.completeTask r s id = (.error "invalid task id", s) ∧
      TaskService.deleteTask r s id = (.error "invalid id", s)) ∧
    (∀ (r : TaskRepository) (s : RepoState) (id : Int),
      (TaskRepository.getTaskByID r s id).2.store = s.store) ∧
    (∀ (r : TaskRepository) (s : RepoState) (id : Int) (task : Task), 0 < id →
      (TaskRepository.getTaskByID r s id).1 = .ok task → task.completed = true →
      TaskService.completeTask r s id
        = (.error "task already completed", (TaskRepository.getTaskByID r s id).2)) := by
  refine ⟨?_, ?_, ?_, ?_, ?_⟩
  · intro r s req h
    simp [TaskService.createTask, h]
  · intro r s req h
    by_cases he : trimSpace req.title = ""
    · constructor
      · exact Or.inl (by simp [TaskService.createTask, he])
      · simp [TaskService.createTask, he]
    · have hb : 255 < req.title.utf8ByteSize :=
        lt_of_lt_of_le h (string_length_le_utf8ByteSize req.title)
      constructor
      · exact Or.inr (by simp [TaskService.createTask, he, hb])
      · simp [TaskService.createTask, he, hb]
  · intro r s id h
    exact ⟨by simp [TaskService.getTaskByID, h],
      by simp [TaskService.completeTask, h],
      by simp [TaskService.deleteTask, h]⟩
  · intro r s id
    cases hm : TaskRepository.getTaskFromCache r s.cache id with
    | some t => simp [TaskRepository.getTaskByID, hm]
    | none =>
      cases hf : s.store.findByID id with
      | error e => simp [TaskRepository.getTaskByID, hm, hf]
      | ok t => simp [TaskRepository.getTaskByID, hm, hf]
  · intro r s id task hpos hok hcomp
    have hnle : ¬ id ≤ 0 := by omega
    rcases hp : TaskRepository.getTaskByID r s id with ⟨res, s2⟩
    rw [hp] at hok
    simp only at hok
    subst hok
    simp [TaskService.completeTask, hnle, hp, hcomp]

set_option maxRecDepth 4096 in
/-- Witness for C9 at concrete inputs: empty title, 256-character title,
id 0, and completing the already-completed task 7. -/
theorem service_validation_witness :
    TaskService.createTask rEnabled ⟨store7, cache0⟩ ⟨"", "d"⟩
      = (.error "title can not be empty", ⟨store7, cache0⟩) ∧
    (((TaskService.createTask rEnabled ⟨store7, cache0⟩ ⟨longTitle, "d"⟩).1
        = .error "title can not be empty" ∨
      (TaskService.createTask rEnabled ⟨store7, cache0⟩ ⟨longTitle, "d"⟩).1
        = .error "title too long, maximum 255 characters") ∧
     (TaskService.createTask rEnabled ⟨store7, cache0⟩ ⟨longTitle, "d"⟩).2
        = ⟨store7, cache0⟩) ∧
    TaskService.completeTask rEnabled ⟨store7, cache0⟩ 0
      = (.error "invalid task id", ⟨store7, cache0⟩) ∧
    TaskService.completeTask rEnabled ⟨storeDone7, cache0⟩ 7
      = (.error "task already completed",
         (TaskRepository.getTaskByID rEnabled ⟨storeDone7, cache0⟩ 7).2) := by
  refine ⟨?_, ?_, ?_, ?_⟩
  · exact service_validation.1 rEnabled ⟨store7, cache0⟩ ⟨"", "d"⟩ (by decide)
  · exact service_validation.2.1 rEnabled ⟨store7, cache0⟩ ⟨longTitle, "d"⟩
      (by decide)
  · exact (service_validation.2.2.1 rEnabled ⟨store7, cache0⟩ 0 (by decide)).2.1
  · exact service_validation.2.2.2.2 rEnabled ⟨storeDone7, cache0⟩ 7 doneTask7
      (by decide) (by decide) (by decide)

/-- Counterexample to C8 as stated: calling `CompleteTask(99)` against an
empty healthy store, the store reports its no-rows condition, yet the
service hands the transport the raw store message and the transport
answers `codes.Internal` — not the not-found status the claim requires for
every operation. -/
theorem serviceErrorMapping_counterexample :
    storeEmpty.findByID 99 = .error .noRows ∧
    (TaskService.completeTask rDisabled ⟨storeEmpty, cache0⟩ 99).1
      = .error "sql: no rows in result set" ∧
    TaskServer.completeTaskCode
      (TaskService.completeTask rDisabled ⟨storeEmpty, cache0⟩ 99).1
      = GrpcCode.internalCode ∧
    GrpcCode.internalCode ≠ GrpcCode.notFoundCode := by decide

/-- Claim C8 (amended): the service maps the store's no-rows condition to
the domain "task not found" for `GetTaskByID` only — there the transport
answers NotFound, other store failures answer Internal; validation errors
answer InvalidArgument on every id-taking operation and on create;
`GetAllTasks` failures answer Internal; `CreateTask` store failures answer
Internal (unless the raw message collides with a validation string). But
`CompleteTask` propagates the raw store error, so its store no-rows
reaches the transport as Internal; and `DeleteTask` maps every failure of
its pre-read — no-rows and connectivity alike — to "failed to find task",
which the transport answers with NotFound. -/
theorem serviceErrorMapping_amended :
    (∀ (r : TaskRepository) (s : RepoState) (id : Int), 0 < id →
      TaskRepository.getTaskFromCache r s.cache id = none →
      s.store.findByID id = .error .noRows →
      TaskServer.getTaskByIDCode (TaskService.getTaskByID r s id).1
        = GrpcCode.notFoundCode) ∧
    (∀ (r : TaskRepository) (s : RepoState) (id : Int) (m : String), 0 < id →
      TaskRepository.getTaskFromCache r s.cache id = none →
      s.store.findByID id = .error (.connError m) →
      TaskServer.getTaskByIDCode (TaskService.getTaskByID r s id).1
        = GrpcCode.internalCode) ∧
    (∀ (r : TaskRepository) (s : RepoState) (id : Int), 0 < id →
      TaskRepository.getTaskFromCache r s.cache id = none →
      s.store.findByID id = .error .noRows →
      TaskServer.completeTaskCode (TaskService.completeTask r s id).1
        = GrpcCode.internalCode) ∧
    (∀ (r : TaskRepository) (s : RepoState) (id : Int) (e : DBError), 0 < id →
      TaskRepository.getTaskFromCache r s.cache id = none →
      s.store.findByID id = .error e →
      TaskServer.deleteTaskCode (TaskService.deleteTask r s id).1
        = GrpcCode.notFoundCode) ∧
    (∀ (r : TaskRepository) (s : RepoState) (id : Int), id ≤ 0 →
      TaskServer.getTaskByIDCode (TaskService.getTaskByID r s id).1
        = GrpcCode.invalidArgument ∧
      TaskServer.completeTaskCode (TaskService.completeTask r s id).1
        = GrpcCode.invalidArgument ∧
      TaskServer.deleteTaskCode (TaskService.deleteTask r s id).1
        = GrpcCode.invalidArgument) ∧
    (∀ (r : TaskRepository) (s : RepoState) (m : String),
      s.store.failure = some m →
      TaskServer.getAllTasksCode (TaskService.getAllTasks r s).1
        = GrpcCode.internalCode) ∧
    (∀ (r : TaskRepository) (s : RepoState) (req : CreateTaskRequest),
      trimSpace req.title = "" →
      TaskServer.createTaskCode (TaskService.createTask r s req).1
        = GrpcCode.invalidArgument) ∧
    (∀ (r : TaskRepository) (s : RepoState) (req : CreateTaskRequest)
       (m : String),
      trimSpace req.title ≠ "" → req.title.utf8ByteSize ≤ 255 →
      s.store.failure = some m → m ≠ "title can not be empty" →
      m ≠ "title too long, maximum 255 characters" →
      TaskServer.createTaskCode (TaskService.createTask r s req).1
        = GrpcCode.internalCode) := by
  refine ⟨?_, ?_, ?_, ?_, ?_, ?_, ?_, ?_⟩
  · intro r s id hpos hm hf
    have hnle : ¬ id ≤ 0 := by omega
    have h1 : (TaskService.getTaskByID r s id).1 = .error "task not found" := by
      simp [TaskService.getTaskByID, hnle, TaskRepository.getTaskByID, hm, hf]
    rw [h1]; decide
  · intro r s id m hpos hm hf
    have hnle : ¬ id ≤ 0 := by omega
    have h1 : (TaskService.getTaskByID r s id).1
        = .error "internal server error" := by
      simp [TaskService.getTaskByID, hnle, TaskRepository.getTaskByID, hm, hf]
    rw [h1]; decide
  · intro r s id hpos hm hf
    have hnle : ¬ id ≤ 0 := by omega
    have h1 : (TaskService.completeTask r s id).1
        = .error "sql: no rows in result set" := by
      simp [TaskService.completeTask, hnle, TaskRepository.getTaskByID, hm, hf,
        DBError.message]
    rw [h1]; decide
  · intro r s id e hpos hm hf
    have hnle : ¬ id ≤ 0 := by omega
    have h1 : (TaskService.deleteTask r s id).1
        = .error "failed to find task" := by
      simp [TaskService.deleteTask, hnle, TaskRepository.getTaskByID, hm, hf]
    rw [h1]; decide
  · intro r s id h
    have e1 : (TaskService.getTaskByID r s id).1 = .error "invalid task id" := by
      simp [TaskService.getTaskByID, h]
    have e2 : (TaskService.completeTask r s id).1 = .error "invalid task id" := by
      simp [TaskService.completeTask, h]
    have e3 : (TaskService.deleteTask r s id).1 = .error "invalid id" := by
      simp [TaskService.deleteTask, h]
    rw [e1, e2, e3]
    exact ⟨by decide, by decide, by decide⟩
  · intro r s m hf
    have h1 : (TaskService.getAllTasks r s).1
        = .error "internal server error" := by
      simp [TaskService.getAllTasks, TaskRepository.getAllTasks, Store.findAll, hf]
    rw [h1]; decide
  · intro r s req h
    have h1 : (TaskService.createTask r s req).1
        = .error "title can not be empty" := by
      simp [TaskService.createTask, h]
    rw [h1]; decide
  · intro r s req m ht hlen hf hm1 hm2
    have hnlt : ¬ 255 < req.title.utf8ByteSize := by omega
    have h1 : (TaskService.createTask r s req).1 = .error m := by
      simp [TaskService.createTask, ht, hnlt, TaskRepository.createTask,
        Store.insert, hf, DBError.message]
    rw [h1]
    simp [TaskServer.createTaskCode, hm1, hm2]

/-- Witness for C8 (amended) at concrete inputs: not-found and
connectivity outcomes across the five operations. -/
theorem serviceErrorMapping_amended_witness :
    TaskServer.getTaskByIDCode
      (TaskService.getTaskByID rEnabled ⟨storeEmpty, cache0⟩ 99).1
      = GrpcCode.notFoundCode ∧
    TaskServer.getTaskByIDCode
      (TaskService.getTaskByID rEnabled ⟨storeDown, cache0⟩ 5).1
      = GrpcCode.internalCode ∧
    TaskServer.completeTaskCode
      (TaskService.completeTask rEnabled ⟨storeEmpty, cache0⟩ 99).1
      = GrpcCode.internalCode ∧
    TaskServer.deleteTaskCode
      (TaskService.deleteTask rEnabled ⟨storeDown, cache0⟩ 5).1
      = GrpcCode.notFoundCode ∧
    TaskServer.completeTaskCode
      (TaskService.completeTask rEnabled ⟨storeEmpty, cache0⟩ 0).1
      = GrpcCode.invalidArgument ∧
    TaskServer.getAllTasksCode
      (TaskService.getAllTasks rEnabled ⟨storeDown, cache0⟩).1
      = GrpcCode.internalCode ∧
    TaskServer.createTaskCode
      (TaskService.createTask rEnabled ⟨storeDown, cache0⟩ ⟨"A", "d"⟩).1
      = GrpcCode.internalCode := by
  refine ⟨?_, ?_, ?_, ?_, ?_, ?_, ?_⟩
  · exact serviceErrorMapping_amended.1 rEnabled ⟨storeEmpty, cache0⟩ 99
      (by decide) (by decide) (by decide)
  · exact serviceErrorMapping_amended.2.1 rEnabled ⟨storeDown, cache0⟩ 5 "db down"
      (by decide) (by decide) (by decide)
  · exact serviceErrorMapping_amended.2.2.1 rEnabled ⟨storeEmpty, cache0⟩ 99
      (by decide) (by decide) (by decide)
  · exact serviceErrorMapping_amended.2.2.2.1 rEnabled ⟨storeDown, cache0⟩ 5
      (.connError "db down") (by decide) (by decide) (by decide)
  · exact (serviceErrorMapping_amended.2.2.2.2.1 rEnabled ⟨storeEmpty, cache0⟩ 0
      (by decide)).2.1
  · exact serviceErrorMapping_amended.2.2.2.2.2.1 rEnabled ⟨storeDown, cache0⟩
      "db down" (by decide)
  · exact serviceErrorMapping_amended.2.2.2.2.2.2.2 rEnabled ⟨storeDown, cache0⟩
      ⟨"A", "d"⟩ "db down" (by decide) (by decide) (by decide) (by decide)
      (by decide)

end Todo
